import Mathlib

/-
  Shallow embedding of dboom.c (an HTTP load generator built on libdill
  coroutines) and proofs about its orchestration core.

  Modelling conventions for the C source:
  * `unsigned int` values are natural numbers, reduced mod 2^32 where the
    source performs arithmetic on them;
  * conversion of an `unsigned int` to `int` (as in `int i = nreqs;`) is
    modelled as the two's-complement reinterpretation, the behaviour of all
    supported targets (the C standard leaves the out-of-range case
    implementation-defined);
  * signed `int` overflow is undefined behaviour in C, so every theorem about
    a loop driven by an `int` counter carries the hypothesis that the counter
    stays within `int` range (below 2^31);
  * the opaque collaborator `MakeRequest` is an oracle: each call either
    fails or yields a filled `reqstats`;
  * channel traffic is represented by explicit event lists and action traces;
    blocking, rendezvous and scheduling are abstracted away, which is sound
    for the value-level and ordering claims proved here.
-/

namespace Dboom

/-- 2^32, the modulus of the C type `unsigned int`. -/
def UINT_MOD : Nat := 2 ^ 32

/-- Reinterpretation of a 32-bit unsigned value as a C `int`
(two's complement): values below 2^31 are unchanged, larger ones wrap
to negatives.  Models `int i = nreqs;` for `unsigned int nreqs`. -/
def intOfUInt32 (n : Nat) : Int :=
  if n < 2 ^ 31 then (n : Int) else (n : Int) - 2 ^ 32

/-- Conversion of a C `int` value to `unsigned int`: reduction mod 2^32
(defined behaviour in C).  Models the implicit conversion in
`unsigned int getRequests(...) { return ... atoi(requests) ...; }`. -/
def uint32OfInt (v : Int) : Nat := (v % (UINT_MOD : Int)).toNat

/-- Default for `-n` (dboom.c line 13). -/
def DEFAULT_REQUESTS : Nat := 10

/-- Default for `-c` (dboom.c line 14). -/
def DEFAULT_CONCURR : Nat := 5

/-- Default for `-t` in ms (dboom.c line 15). -/
def DEFAULT_TIMEOUT : Int := 5000

/-- dboom.c `getRequests`: `return requests ? atoi(requests) : DEFAULT_REQUESTS;`.
The argument is the result of `atoi` (an `int`) when `-n` was given, `none`
otherwise; the return type `unsigned int` forces the mod-2^32 conversion. -/
def getRequests : Option Int → Nat
  | some v => uint32OfInt v
  | none => DEFAULT_REQUESTS

/-- dboom.c `getConcurrentReqs`: same shape as `getRequests` with default 5. -/
def getConcurrentReqs : Option Int → Nat
  | some v => uint32OfInt v
  | none => DEFAULT_CONCURR

/-- The two fatal configuration errors of `main` (dboom.c lines 62-76). -/
inductive ConfigError where
  | countsNotPositive
  | reqsBelowConcurr
deriving DecidableEq

/-- dboom.c lines 62-76: `if(nreqs == 0 || nconcurr == 0) ... exit(EXIT_FAILURE);`
then `if(nreqs < nconcurr) ... exit(EXIT_FAILURE);`.  Arguments are the
already-converted `unsigned int` values. -/
def validateArgs (nreqs nconcurr : Nat) : Except ConfigError Unit :=
  if nreqs = 0 ∨ nconcurr = 0 then Except.error ConfigError.countsNotPositive
  else if nreqs < nconcurr then Except.error ConfigError.reqsBelowConcurr
  else Except.ok ()

/-- `struct reqstats` (dboom.h): `tm` is a `long` holding a nonnegative
latency in ms, `http_code` an `int`. -/
structure reqstats where
  tm : Nat
  http_code : Int
deriving DecidableEq

/-- dboom.c `reqstats_new`: zero-initialised record. -/
def reqstats_new : reqstats := { tm := 0, http_code := 0 }

/-- Number of iterations of the worker loop
`for(int i = nreqs; i > 0; --i)` (dboom.c line 163): the `unsigned int`
argument is reinterpreted as `int`, and the loop body runs once per value
from that `int` down to 1 (zero times if it starts nonpositive). -/
def boomAttempts (nreqs : Nat) : Nat := (intOfUInt32 nreqs).toNat

/-- The worker loop body (dboom.c lines 163-169), indexed by the countdown
counter `i`: on iteration `i` the oracle `outcome i` is `some rs` when
`MakeRequest` returns 0 having filled `rs` (the worker then sends `rs` on the
stats channel) and `none` when `MakeRequest` fails (nothing is sent).
The returned list is the sequence of values sent on `stats_ch`, in order. -/
def boomLoop (outcome : Nat → Option reqstats) : Nat → List reqstats
  | 0 => []
  | i + 1 =>
    match outcome (i + 1) with
    | some rs => rs :: boomLoop outcome i
    | none => boomLoop outcome i

/-- Observable output of one `boom` coroutine: the stats messages it sent
and how many completion signals it sent on `done_ch`. -/
structure BoomOutput where
  published : List reqstats
  doneSignals : Nat
deriving DecidableEq

/-- dboom.c `boom` (lines 159-174): run the request loop, then send exactly
one `done` message (lines 171-173). -/
def boomRun (nreqs : Nat) (outcome : Nat → Option reqstats) : BoomOutput :=
  { published := boomLoop outcome (boomAttempts nreqs)
    doneSignals := 1 }

/-- One event observed by the `stats` coroutine through `choose`
(dboom.c lines 184-190): either the stop message from `main` (which carries
the value 1, ending the `while(stop == 0)` loop) or one `reqstats` record
from a worker. -/
inductive StatsEvent where
  | stop
  | result (rs : reqstats)
deriving DecidableEq

/-- Mutable state of the `stats` coroutine: `nrequests` (an `int`, counts
received results), `total` (an `unsigned int`, wraps mod 2^32), and the
verbose lines printed so far (status code and latency pairs, in order). -/
structure StatsState where
  nrequests : Nat
  total : Nat
  echoed : List (Int × Nat)
deriving DecidableEq

/-- Effect of one received result (dboom.c lines 195-201):
`nrequests++; total += rs.tm;` (the `+=` on an `unsigned int` wraps mod 2^32)
and, if verbose, `printf("%d,%ld\n", rs.http_code, rs.tm)`. -/
def statsStep (verbose : Bool) (s : StatsState) (rs : reqstats) : StatsState :=
  { nrequests := s.nrequests + 1
    total := (s.total + rs.tm) % UINT_MOD
    echoed := if verbose then s.echoed ++ [(rs.http_code, rs.tm)] else s.echoed }

/-- The `while(stop == 0)` loop of `stats` (dboom.c lines 189-202) run over a
list of channel events: it consumes results until the first stop message,
at which point the loop ends (the received stop value is 1). -/
def statsLoop (verbose : Bool) (s : StatsState) : List StatsEvent → StatsState
  | [] => s
  | StatsEvent.stop :: _ => s
  | StatsEvent.result rs :: rest => statsLoop verbose (statsStep verbose s rs) rest

/-- Observable output of the `stats` coroutine: the verbose lines, the
optional summary (request count as printed, and the average as printed by
`printf("... %d ...", total/nrequests)` where the unsigned quotient is
rendered through `%d`, i.e. reinterpreted as an `int`), and the number of
acknowledgment messages sent back on `stop_ch`. -/
structure StatsOutput where
  echoed : List (Int × Nat)
  summary : Option (Nat × Int)
  acks : Nat
deriving DecidableEq

/-- dboom.c `stats` (lines 176-210): run the loop from a zeroed state, then
`if(nrequests > 0) printf("Avg response time for %d requests: %d ms\n",
nrequests, total/nrequests);` and finally send exactly one message on
`stop_ch` (lines 208-209), unconditionally. -/
def statsRun (verbose : Bool) (events : List StatsEvent) : StatsOutput :=
  let s := statsLoop verbose { nrequests := 0, total := 0, echoed := [] } events
  { echoed := s.echoed
    summary :=
      if 0 < s.nrequests then some (s.nrequests, intOfUInt32 (s.total / s.nrequests))
      else none
    acks := 1 }

/-- The results delivered to `stats` before the first stop message of an
event list (the stop ends the loop, so later events are never read). -/
def resultsBefore : List StatsEvent → List reqstats
  | [] => []
  | StatsEvent.stop :: _ => []
  | StatsEvent.result rs :: rest => rs :: resultsBefore rest

/-- Sum of the latencies of a list of results (exact, no wrapping). -/
def latencySum (l : List reqstats) : Nat := (l.map reqstats.tm).sum

/-- Observable actions of `main` (dboom.c lines 86-156), in program order:
channel creation, coroutine spawns, handle-array allocation, the join-barrier
receives, the stop/ack handshake, handle and channel teardown, freeing the
handle array and printing the run time. -/
inductive Action where
  | makeChannel
  | spawnStats
  | allocHandles
  | spawnWorker (share : Nat)
  | recvDone
  | sendStop
  | recvAck
  | closeWorker
  | closeStats
  | closeChannel
  | freeHandles
  | printRunTime
deriving DecidableEq

/-- Number of receives performed by the join barrier
`for(int i = nconcurr; i > 0; --i) chrecv(done_ch, ...)` (dboom.c lines
124-130): the `unsigned int nconcurr` is reinterpreted as `int` to
initialise the counter. -/
def joinRecvs (nconcurr : Nat) : Nat := (intOfUInt32 nconcurr).toNat

/-- The action trace of a failure-free run of `main` after validation
(dboom.c lines 86-156), in program order.  The worker-spawn loop
`for(int i = 0; i < nconcurr; ++i)` runs `nconcurr` times; its `int` counter
makes that model valid only for `nconcurr < 2^31` (beyond, incrementing the
counter past INT_MAX is undefined behaviour), so every theorem about runs
carries that bound. -/
def mainTrace (nreqs nconcurr : Nat) : List Action :=
  [Action.makeChannel, Action.makeChannel, Action.makeChannel,
   Action.spawnStats, Action.allocHandles]
  ++ List.replicate nconcurr (Action.spawnWorker (nreqs / nconcurr))
  ++ List.replicate (joinRecvs nconcurr) Action.recvDone
  ++ [Action.sendStop, Action.recvAck]
  ++ List.replicate nconcurr Action.closeWorker
  ++ [Action.closeStats, Action.closeChannel, Action.closeChannel,
      Action.closeChannel, Action.freeHandles, Action.printRunTime]

/-- Sites in `main` where a primitive can fail (its return value is checked
in the source). -/
inductive OrchFailSite where
  | chmakeFail
  | spawnStatsFail
  | mallocFail
  | spawnWorkerFail
  | recvDoneFail
  | sendStopFail
  | recvAckFail
  | closeFail
deriving DecidableEq

/-- How `main` reacts when the primitive at a given site fails, read off the
corresponding `if` in dboom.c:
lines 93-96 (chmake), 104-107 (go stats), 110-113 (malloc), 116-119
(go boom) and 126-129 (chrecv on done_ch) call `perror` then
`exit(EXIT_FAILURE)`; lines 134 (chsend on stop_ch), 137 (chrecv on stop_ch)
and 143-148 (hclose) call `perror` only and execution continues. -/
inductive FailResponse where
  | fatalExit (code : Nat)
  | reportContinue
deriving DecidableEq

/-- The per-site failure reaction of `main` (see `FailResponse`). -/
def orchOnFailure : OrchFailSite → FailResponse
  | OrchFailSite.chmakeFail => FailResponse.fatalExit 1
  | OrchFailSite.spawnStatsFail => FailResponse.fatalExit 1
  | OrchFailSite.mallocFail => FailResponse.fatalExit 1
  | OrchFailSite.spawnWorkerFail => FailResponse.fatalExit 1
  | OrchFailSite.recvDoneFail => FailResponse.fatalExit 1
  | OrchFailSite.sendStopFail => FailResponse.reportContinue
  | OrchFailSite.recvAckFail => FailResponse.reportContinue
  | OrchFailSite.closeFail => FailResponse.reportContinue

/-- `main` with a failure injected at the first occurrence of the given site
(`none` = failure-free run).  Result: (exit code, action trace).  Validation
(dboom.c lines 59-76) runs first and exits with EXIT_FAILURE before any
channel or coroutine exists.  A fatal site truncates the trace at the failing
operation and exits 1; the stop/ack and hclose failure branches only `perror`
to stderr (not modelled) and the run continues to normal completion with
exit code 0 (`exit(EXIT_SUCCESS)`, line 156). -/
def mainRunFail (nreqs nconcurr : Nat) (fail : Option OrchFailSite) :
    Nat × List Action :=
  match validateArgs nreqs nconcurr with
  | Except.error _ => (1, [])
  | Except.ok _ =>
    match fail with
    | some OrchFailSite.chmakeFail =>
        (1, [Action.makeChannel, Action.makeChannel, Action.makeChannel])
    | some OrchFailSite.spawnStatsFail =>
        (1, [Action.makeChannel, Action.makeChannel, Action.makeChannel,
             Action.spawnStats])
    | some OrchFailSite.mallocFail =>
        (1, [Action.makeChannel, Action.makeChannel, Action.makeChannel,
             Action.spawnStats, Action.allocHandles])
    | some OrchFailSite.spawnWorkerFail =>
        (1, [Action.makeChannel, Action.makeChannel, Action.makeChannel,
             Action.spawnStats, Action.allocHandles,
             Action.spawnWorker (nreqs / nconcurr)])
    | some OrchFailSite.recvDoneFail =>
        (1, [Action.makeChannel, Action.makeChannel, Action.makeChannel,
             Action.spawnStats, Action.allocHandles]
            ++ List.replicate nconcurr (Action.spawnWorker (nreqs / nconcurr))
            ++ [Action.recvDone])
    | some OrchFailSite.sendStopFail => (0, mainTrace nreqs nconcurr)
    | some OrchFailSite.recvAckFail => (0, mainTrace nreqs nconcurr)
    | some OrchFailSite.closeFail => (0, mainTrace nreqs nconcurr)
    | none => (0, mainTrace nreqs nconcurr)

/-- A failure-free run of `main`: exit code and action trace. -/
def mainRun (nreqs nconcurr : Nat) : Nat × List Action :=
  mainRunFail nreqs nconcurr none

/-- Total number of HTTP requests attempted across a run: `nconcurr` workers
are spawned (dboom.c line 114), each is handed the share `nreqs/nconcurr`
(line 115) and attempts `boomAttempts` of them (line 163). -/
def totalAttempted (nreqs nconcurr : Nat) : Nat :=
  nconcurr * boomAttempts (nreqs / nconcurr)

/-! Helper lemmas shared by the claim theorems. -/

theorem toNat_intOfUInt32 (n : Nat) (h : n < 2 ^ 31) : (intOfUInt32 n).toNat = n := by
  unfold intOfUInt32
  rw [if_pos h]
  simp

theorem boomAttempts_of_lt (n : Nat) (h : n < 2 ^ 31) : boomAttempts n = n :=
  toNat_intOfUInt32 n h

theorem joinRecvs_of_lt (n : Nat) (h : n < 2 ^ 31) : joinRecvs n = n :=
  toNat_intOfUInt32 n h

theorem validateArgs_ok_iff (N C : Nat) :
    validateArgs N C = Except.ok () ↔ N ≠ 0 ∧ C ≠ 0 ∧ C ≤ N := by
  unfold validateArgs
  split_ifs with h1 h2
  · constructor
    · intro hcontra
      cases hcontra
    · intro hh
      exact absurd h1 (by omega)
  · constructor
    · intro hcontra
      cases hcontra
    · intro hh
      exact absurd h2 (by omega)
  · constructor
    · intro _
      omega
    · intro _
      rfl

theorem mainRun_valid (N C : Nat) (h : validateArgs N C = Except.ok ()) :
    mainRun N C = (0, mainTrace N C) := by
  unfold mainRun mainRunFail
  rw [h]

theorem statsLoop_nrequests (verbose : Bool) (s : StatsState)
    (events : List StatsEvent) :
    (statsLoop verbose s events).nrequests =
      s.nrequests + (resultsBefore events).length := by
  induction events generalizing s with
  | nil => simp [statsLoop, resultsBefore]
  | cons e rest ih =>
    cases e with
    | stop => simp [statsLoop, resultsBefore]
    | result rs =>
      simp [statsLoop, resultsBefore, ih, statsStep]
      omega

theorem statsLoop_total (verbose : Bool) (s : StatsState)
    (events : List StatsEvent) (hs : s.total < UINT_MOD) :
    (statsLoop verbose s events).total =
      (s.total + latencySum (resultsBefore events)) % UINT_MOD := by
  induction events generalizing s with
  | nil => simp [statsLoop, resultsBefore, latencySum, Nat.mod_eq_of_lt hs]
  | cons e rest ih =>
    cases e with
    | stop => simp [statsLoop, resultsBefore, latencySum, Nat.mod_eq_of_lt hs]
    | result rs =>
      have hstep : (statsStep verbose s rs).total < UINT_MOD := by
        apply Nat.mod_lt
        simp [UINT_MOD]
      rw [statsLoop, ih (statsStep verbose s rs) hstep]
      simp [statsStep, latencySum, resultsBefore, Nat.mod_add_mod]
      ring_nf

theorem statsLoop_echoed (verbose : Bool) (s : StatsState)
    (events : List StatsEvent) :
    (statsLoop verbose s events).echoed =
      s.echoed ++
        (if verbose then
          (resultsBefore events).map (fun rs => (rs.http_code, rs.tm))
         else []) := by
  induction events generalizing s with
  | nil => cases verbose <;> simp [statsLoop, resultsBefore]
  | cons e rest ih =>
    cases e with
    | stop => cases verbose <;> simp [statsLoop, resultsBefore]
    | result rs =>
      rw [statsLoop, ih (statsStep verbose s rs)]
      cases verbose <;> simp [statsStep, resultsBefore]

theorem boomLoop_eq_filterMap (outcome : Nat → Option reqstats) (n : Nat) :
    boomLoop outcome n = (List.range' 1 n).reverse.filterMap outcome := by
  induction n with
  | zero => simp [boomLoop]
  | succ k ih =>
    rw [boomLoop, List.range'_concat]
    simp only [List.reverse_append, List.reverse_singleton, List.singleton_append,
      List.filterMap_cons, one_mul]
    have h1k : 1 + k = k + 1 := Nat.add_comm 1 k
    rw [h1k, ih]
    cases houtcome : outcome (k + 1) <;> rfl

/-! Claim theorems. -/

/-- C2: every configuration with N = 0, C = 0, or N < C is rejected by the
validation in `main`: a configuration error is reported, the process exits
with a non-zero code, and the action trace is empty — no channel is created
and no worker or aggregator coroutine is spawned before the exit. -/
theorem C2_invalid_config_rejected (N C : Nat)
    (h : N = 0 ∨ C = 0 ∨ N < C) :
    (∃ e, validateArgs N C = Except.error e) ∧
    (mainRun N C).1 ≠ 0 ∧ (mainRun N C).2 = [] := by
  have herr : ∃ e, validateArgs N C = Except.error e := by
    unfold validateArgs
    split_ifs with h1 h2
    · exact ⟨ConfigError.countsNotPositive, rfl⟩
    · exact ⟨ConfigError.reqsBelowConcurr, rfl⟩
    · exact absurd h (by omega)
  obtain ⟨e, he⟩ := herr
  have hrun : mainRun N C = (1, []) := by
    unfold mainRun mainRunFail
    rw [he]
  exact ⟨⟨e, he⟩, by rw [hrun]; decide, by rw [hrun]⟩

/-- C2 witness: the configuration N = 5, C = 10 (more workers than requests)
is rejected with a non-zero exit and an empty action trace. -/
theorem C2_witness :
    (∃ e, validateArgs 5 10 = Except.error e) ∧
    (mainRun 5 10).1 ≠ 0 ∧ (mainRun 5 10).2 = [] :=
  C2_invalid_config_rejected 5 10 (Or.inr (Or.inr (by omega)))

/-- C5: whenever no result reaches the aggregator before the stop request
(completed count 0), no average line is printed, and exactly one
acknowledgment is still sent on the stop/ack channel, so the handshake
completes. -/
theorem C5_no_success_no_average (verbose : Bool) (events : List StatsEvent)
    (h : resultsBefore events = []) :
    (statsRun verbose events).summary = none ∧
    (statsRun verbose events).acks = 1 := by
  have hn := statsLoop_nrequests verbose { nrequests := 0, total := 0, echoed := [] } events
  rw [h] at hn
  simp at hn
  constructor
  · have hrfl : (statsRun verbose events).summary =
        (if 0 < (statsLoop verbose { nrequests := 0, total := 0, echoed := [] } events).nrequests
         then some ((statsLoop verbose { nrequests := 0, total := 0, echoed := [] } events).nrequests,
           intOfUInt32 ((statsLoop verbose { nrequests := 0, total := 0, echoed := [] } events).total /
             (statsLoop verbose { nrequests := 0, total := 0, echoed := [] } events).nrequests))
         else none) := rfl
    rw [hrfl, hn]
    simp
  · rfl

/-- C5 witness: a run whose event stream holds only the stop request prints
no average and still acknowledges once. -/
theorem C5_witness :
    (statsRun true [StatsEvent.stop]).summary = none ∧
    (statsRun true [StatsEvent.stop]).acks = 1 :=
  C5_no_success_no_average true [StatsEvent.stop] rfl

/-- C6: with verbose enabled, the aggregator echoes exactly one line per
result received before the stop request, in arrival order, each line carrying
that result's own status code and latency; the number of echoed lines equals
the number of results received.  (The bound on the number of results keeps
the `int` counter `nrequests` inside its range.) -/
theorem C6_verbose_echo (events : List StatsEvent)
    (_hlen : (resultsBefore events).length < 2 ^ 31) :
    (statsRun true events).echoed =
      (resultsBefore events).map (fun rs => (rs.http_code, rs.tm)) ∧
    (statsRun true events).echoed.length = (resultsBefore events).length := by
  have he := statsLoop_echoed true { nrequests := 0, total := 0, echoed := [] } events
  simp at he
  have hrfl : (statsRun true events).echoed =
      (statsLoop true { nrequests := 0, total := 0, echoed := [] } events).echoed := rfl
  constructor
  · rw [hrfl, he]
  · rw [hrfl, he]
    simp

/-- C6 witness: two results echo as two lines, in arrival order, one line
per result. -/
theorem C6_witness :
    (statsRun true [StatsEvent.result { tm := 120, http_code := 200 },
        StatsEvent.result { tm := 80, http_code := 404 }, StatsEvent.stop]).echoed =
      [((200 : Int), (120 : Nat)), ((404 : Int), (80 : Nat))] := by
  have h := C6_verbose_echo [StatsEvent.result { tm := 120, http_code := 200 },
    StatsEvent.result { tm := 80, http_code := 404 }, StatsEvent.stop] (by decide)
  rw [h.1]
  decide

/-- C10: the request and concurrency arguments go through `atoi` and a cast
to `unsigned int`, so every negative argument value wraps mod 2^32 to a
number of at least 2^31 — large, positive, and accepted by the
greater-than-zero check; validation accepts exactly the configurations with
both counts nonzero and N ≥ C after wrapping, and an accepted configuration
starts the run (exit 0, nonempty action trace). -/
theorem C10_negative_arg_wraps (v : Int) (hlo : -2147483648 ≤ v) (hneg : v < 0)
    (N C : Nat) :
    2 ^ 31 ≤ getRequests (some v) ∧
    getRequests (some v) ≠ 0 ∧
    (validateArgs N C = Except.ok () ↔ N ≠ 0 ∧ C ≠ 0 ∧ C ≤ N) ∧
    (validateArgs N C = Except.ok () →
      (mainRun N C).1 = 0 ∧ (mainRun N C).2 ≠ []) := by
  have e31 : (2 : Nat) ^ 31 = 2147483648 := by norm_num
  have key : 2 ^ 31 ≤ getRequests (some v) := by
    show 2 ^ 31 ≤ uint32OfInt v
    unfold uint32OfInt UINT_MOD
    have e32 : ((2 ^ 32 : Nat) : Int) = 4294967296 := by norm_num
    rw [e32, e31]
    omega
  refine ⟨key, by omega, validateArgs_ok_iff N C, ?_⟩
  intro hok
  rw [mainRun_valid N C hok]
  refine ⟨rfl, ?_⟩
  unfold mainTrace
  simp

/-- C10 witness: the argument -1 wraps to 4294967295, passes validation
against the default concurrency 5, and the run starts. -/
theorem C10_witness :
    2 ^ 31 ≤ getRequests (some (-1)) ∧
    getRequests (some (-1)) ≠ 0 ∧
    (validateArgs 4294967295 5 = Except.ok () ↔
      (4294967295 : Nat) ≠ 0 ∧ (5 : Nat) ≠ 0 ∧ 5 ≤ 4294967295) ∧
    (validateArgs 4294967295 5 = Except.ok () →
      (mainRun 4294967295 5).1 = 0 ∧ (mainRun 4294967295 5).2 ≠ []) :=
  C10_negative_arg_wraps (-1) (by norm_num) (by norm_num) 4294967295 5

/-- C4 counterexample to the claim as stated: one successful request with
latency 2^31 ms.  The aggregator's accumulator `total` is a 32-bit
`unsigned int` and the average is printed through `%d`, so the reported
average for this run is -2147483648, not floor(2^31 / 1) = 2^31. -/
theorem C4_counterexample :
    (statsRun false [StatsEvent.result { tm := 2 ^ 31, http_code := 200 },
        StatsEvent.stop]).summary = some (1, (-2147483648 : Int)) ∧
    latencySum (resultsBefore [StatsEvent.result { tm := 2 ^ 31, http_code := 200 },
        StatsEvent.stop]) / 1 = 2 ^ 31 ∧
    ((-2147483648 : Int)) ≠ ((2 ^ 31 : Nat) : Int) := by
  refine ⟨by decide, by decide, by decide⟩

/-- C4 (amended): for every run in which k > 0 requests succeed, whose
latencies sum below 2^31 (so the 32-bit accumulator holds the sum exactly
and the `%d`-printed average is nonnegative) and with fewer than 2^31
results (keeping the `int` result counter in range), the aggregator reports
exactly one summary, with count k and average floor(sum / k), for any
arrival order of the results. -/
theorem C4_average_correct (verbose : Bool) (events : List StatsEvent)
    (hk : 0 < (resultsBefore events).length)
    (hsum : latencySum (resultsBefore events) < 2 ^ 31)
    (_hlen : (resultsBefore events).length < 2 ^ 31) :
    (statsRun verbose events).summary =
      some ((resultsBefore events).length,
        ((latencySum (resultsBefore events) / (resultsBefore events).length : Nat) : Int)) := by
  have hn := statsLoop_nrequests verbose { nrequests := 0, total := 0, echoed := [] } events
  have ht := statsLoop_total verbose { nrequests := 0, total := 0, echoed := [] } events
    (by decide)
  simp at hn ht
  have hrfl : (statsRun verbose events).summary =
      (if 0 < (statsLoop verbose { nrequests := 0, total := 0, echoed := [] } events).nrequests
       then some ((statsLoop verbose { nrequests := 0, total := 0, echoed := [] } events).nrequests,
         intOfUInt32 ((statsLoop verbose { nrequests := 0, total := 0, echoed := [] } events).total /
           (statsLoop verbose { nrequests := 0, total := 0, echoed := [] } events).nrequests))
       else none) := rfl
  have hmod : latencySum (resultsBefore events) % UINT_MOD = latencySum (resultsBefore events) :=
    Nat.mod_eq_of_lt (by unfold UINT_MOD; omega)
  rw [hrfl, hn, ht, hmod, if_pos hk]
  have hdiv : latencySum (resultsBefore events) / (resultsBefore events).length < 2 ^ 31 :=
    lt_of_le_of_lt (Nat.div_le_self _ _) hsum
  unfold intOfUInt32
  rw [if_pos hdiv]

/-- C4 witness: latencies 100 and 201 arriving before the stop give the
summary count 2 and average floor(301 / 2) = 150. -/
theorem C4_witness :
    (statsRun false [StatsEvent.result { tm := 100, http_code := 200 },
        StatsEvent.result { tm := 201, http_code := 200 }, StatsEvent.stop]).summary =
      some (2, (150 : Int)) := by
  have h := C4_average_correct false
    [StatsEvent.result { tm := 100, http_code := 200 },
     StatsEvent.result { tm := 201, http_code := 200 }, StatsEvent.stop]
    (by decide) (by decide) (by decide)
  rw [h]
  decide

/-- C8 counterexample to the claim as stated: a worker whose assigned count
is 2^31.  The loop counter `int i = nreqs` reinterprets that count as a
negative `int`, so the worker runs zero iterations instead of 2^31 — it
publishes nothing even when every request would succeed — though it still
sends its single completion signal. -/
theorem C8_counterexample :
    boomAttempts (2 ^ 31) = 0 ∧
    (2 ^ 31 : Nat) ≠ 0 ∧
    (boomRun (2 ^ 31) (fun _ => some reqstats_new)).published = [] ∧
    (boomRun (2 ^ 31) (fun _ => some reqstats_new)).doneSignals = 1 := by
  refine ⟨by decide, by decide, by decide, rfl⟩

/-- C8 (amended): every worker whose assigned count n is below 2^31 runs
exactly n iterations with no early exit; the values it publishes on the
stats channel are exactly the successful outcomes, one per success, none for
a failure, in execution order; and it then sends exactly one completion
signal. -/
theorem C8_worker_loop (n : Nat) (outcome : Nat → Option reqstats)
    (hn : n < 2 ^ 31) :
    boomAttempts n = n ∧
    (boomRun n outcome).published = (List.range' 1 n).reverse.filterMap outcome ∧
    (boomRun n outcome).doneSignals = 1 := by
  refine ⟨boomAttempts_of_lt n hn, ?_, rfl⟩
  show boomLoop outcome (boomAttempts n) = _
  rw [boomAttempts_of_lt n hn, boomLoop_eq_filterMap]

/-- C8 witness: a worker assigned 3 requests whose second call fails
publishes exactly the two successful results, in order, and signals done
once. -/
theorem C8_witness :
    boomAttempts 3 = 3 ∧
    (boomRun 3 (fun i => if i = 2 then none
        else some { tm := 10 * i, http_code := 200 })).published =
      [{ tm := 30, http_code := 200 }, { tm := 10, http_code := 200 }] ∧
    (boomRun 3 (fun i => if i = 2 then none
        else some { tm := 10 * i, http_code := 200 })).doneSignals = 1 := by
  have h := C8_worker_loop 3
    (fun i => if i = 2 then none else some { tm := 10 * i, http_code := 200 })
    (by norm_num)
  refine ⟨h.1, ?_, h.2.2⟩
  rw [h.2.1]
  decide

/-- C1 counterexample to the claim as stated: N = 2^31, C = 1 passes
validation (0 < 1 ≤ 2^31), so the claim asserts 1 * floor(N/1) = 2^31
attempted requests; but the single worker receives the share 2^31, which the
`int` loop counter reinterprets as negative, so zero requests are
attempted. -/
theorem C1_counterexample :
    validateArgs (2 ^ 31) 1 = Except.ok () ∧
    totalAttempted (2 ^ 31) 1 = 0 ∧
    1 * (2 ^ 31 / 1) = 2 ^ 31 ∧
    (0 : Nat) ≠ 2 ^ 31 := by
  refine ⟨by rfl, by decide, by decide, by decide⟩

/-- C1 (amended): for every valid configuration (0 < C ≤ N) in which C and
the share floor(N/C) are both below 2^31 (so the `int` loop counters of
`main` and of the worker stay in range), the run spawns exactly C workers,
each assigned exactly the share floor(N/C), each attempting exactly that
share; the total attempted is C * floor(N/C), and the remainder N mod C is
never attempted. -/
theorem C1_share_and_total (N C : Nat) (hC : 0 < C) (hCN : C ≤ N)
    (hC31 : C < 2 ^ 31) (hshare : N / C < 2 ^ 31) :
    (∃ pre post,
      (mainRun N C).2 = pre ++ List.replicate C (Action.spawnWorker (N / C)) ++ post ∧
      (∀ s, Action.spawnWorker s ∉ pre) ∧ (∀ s, Action.spawnWorker s ∉ post)) ∧
    boomAttempts (N / C) = N / C ∧
    totalAttempted N C = C * (N / C) ∧
    totalAttempted N C + N % C = N := by
  have hval : validateArgs N C = Except.ok () :=
    (validateArgs_ok_iff N C).mpr ⟨by omega, by omega, hCN⟩
  have hattempts := boomAttempts_of_lt (N / C) hshare
  have htot : totalAttempted N C = C * (N / C) := by
    unfold totalAttempted
    rw [hattempts]
  refine ⟨?_, hattempts, htot, ?_⟩
  · rw [mainRun_valid N C hval]
    refine ⟨[Action.makeChannel, Action.makeChannel, Action.makeChannel,
      Action.spawnStats, Action.allocHandles],
      List.replicate (joinRecvs C) Action.recvDone ++ [Action.sendStop, Action.recvAck]
        ++ List.replicate C Action.closeWorker
        ++ [Action.closeStats, Action.closeChannel, Action.closeChannel,
            Action.closeChannel, Action.freeHandles, Action.printRunTime], ?_, ?_, ?_⟩
    · unfold mainTrace
      simp [List.append_assoc]
    · intro s
      simp
    · intro s
      simp [List.mem_append, List.mem_replicate]
  · rw [htot]
    exact Nat.div_add_mod N C

/-- C1 witness: N = 10, C = 3 attempts exactly 9 requests; the remaining
request is never attempted. -/
theorem C1_witness :
    totalAttempted 10 3 = 9 ∧ totalAttempted 10 3 + 10 % 3 = 10 := by
  have h := C1_share_and_total 10 3 (by norm_num) (by norm_num)
    (by norm_num) (by norm_num)
  refine ⟨?_, h.2.2.2⟩
  rw [h.2.2.1]

/-- C3: in every valid run whose concurrency C stays below 2^31 (above,
the spawn loop's `int` counter leaves defined behaviour before the barrier
is reached), the join barrier performs exactly C blocking receives on the
completion channel, and the single stop request is sent only after all C of
them: the trace holds exactly C `recvDone` actions, all of them before the
unique `sendStop`, so the barrier neither proceeds on fewer than C signals
nor waits for more. -/
theorem C3_join_barrier (N C : Nat) (hC : 0 < C) (hCN : C ≤ N)
    (hC31 : C < 2 ^ 31) :
    joinRecvs C = C ∧
    (∃ pre post,
      (mainRun N C).2 = pre ++ List.replicate C Action.recvDone
        ++ Action.sendStop :: post ∧
      Action.recvDone ∉ pre ∧ Action.recvDone ∉ post ∧
      Action.sendStop ∉ pre ∧ Action.sendStop ∉ post) := by
  have hval : validateArgs N C = Except.ok () :=
    (validateArgs_ok_iff N C).mpr ⟨by omega, by omega, hCN⟩
  refine ⟨joinRecvs_of_lt C hC31, ?_⟩
  rw [mainRun_valid N C hval]
  refine ⟨[Action.makeChannel, Action.makeChannel, Action.makeChannel,
      Action.spawnStats, Action.allocHandles]
      ++ List.replicate C (Action.spawnWorker (N / C)),
    Action.recvAck :: (List.replicate C Action.closeWorker
      ++ [Action.closeStats, Action.closeChannel, Action.closeChannel,
          Action.closeChannel, Action.freeHandles, Action.printRunTime]),
    ?_, ?_, ?_, ?_, ?_⟩
  · unfold mainTrace
    rw [joinRecvs_of_lt C hC31]
    simp [List.append_assoc]
  · simp [List.mem_append, List.mem_replicate]
  · simp [List.mem_append, List.mem_replicate]
  · simp [List.mem_append, List.mem_replicate]
  · simp [List.mem_append, List.mem_replicate]

/-- C3 witness: with N = 10, C = 5 the barrier receives exactly 5 completion
signals before the stop request. -/
theorem C3_witness : joinRecvs 5 = 5 ∧
    (∃ pre post,
      (mainRun 10 5).2 = pre ++ List.replicate 5 Action.recvDone
        ++ Action.sendStop :: post ∧
      Action.recvDone ∉ pre ∧ Action.recvDone ∉ post ∧
      Action.sendStop ∉ pre ∧ Action.sendStop ∉ post) :=
  C3_join_barrier 10 5 (by norm_num) (by norm_num) (by norm_num)

/-- C9: in every valid run (C below 2^31) the shutdown sequence of `main` is
strictly ordered: the trace is a setup segment (channel creation, spawns,
allocation only), then the C join-barrier receives, then the single stop
request immediately followed by the blocking acknowledgment receive, and
only after that acknowledgment the coroutine-handle and channel closes, the
free of the handle array and the run-time print. -/
theorem C9_shutdown_order (N C : Nat) (hC : 0 < C) (hCN : C ≤ N)
    (hC31 : C < 2 ^ 31) :
    ∃ setup,
      (mainRun N C).2 = setup ++ List.replicate C Action.recvDone
        ++ [Action.sendStop, Action.recvAck]
        ++ (List.replicate C Action.closeWorker
            ++ [Action.closeStats, Action.closeChannel, Action.closeChannel,
                Action.closeChannel, Action.freeHandles, Action.printRunTime]) ∧
      ∀ a ∈ setup, a ≠ Action.sendStop ∧ a ≠ Action.recvAck ∧
        a ≠ Action.closeWorker ∧ a ≠ Action.closeStats ∧
        a ≠ Action.closeChannel ∧ a ≠ Action.freeHandles ∧
        a ≠ Action.printRunTime := by
  have hval : validateArgs N C = Except.ok () :=
    (validateArgs_ok_iff N C).mpr ⟨by omega, by omega, hCN⟩
  rw [mainRun_valid N C hval]
  refine ⟨[Action.makeChannel, Action.makeChannel, Action.makeChannel,
      Action.spawnStats, Action.allocHandles]
      ++ List.replicate C (Action.spawnWorker (N / C)), ?_, ?_⟩
  · unfold mainTrace
    rw [joinRecvs_of_lt C hC31]
    simp [List.append_assoc]
  · intro a ha
    cases a <;> simp_all

/-- C9 witness: the shutdown ordering at N = 10, C = 5. -/
theorem C9_witness :
    ∃ setup,
      (mainRun 10 5).2 = setup ++ List.replicate 5 Action.recvDone
        ++ [Action.sendStop, Action.recvAck]
        ++ (List.replicate 5 Action.closeWorker
            ++ [Action.closeStats, Action.closeChannel, Action.closeChannel,
                Action.closeChannel, Action.freeHandles, Action.printRunTime]) ∧
      ∀ a ∈ setup, a ≠ Action.sendStop ∧ a ≠ Action.recvAck ∧
        a ≠ Action.closeWorker ∧ a ≠ Action.closeStats ∧
        a ≠ Action.closeChannel ∧ a ≠ Action.freeHandles ∧
        a ≠ Action.printRunTime :=
  C9_shutdown_order 10 5 (by norm_num) (by norm_num) (by norm_num)

/-- C7 counterexample to the claim as stated: with N = 10, C = 5, a failure
of the stop-request send on the stop/ack channel is not fatal — `main` only
reports it and continues, the run goes on through teardown, prints the run
time and exits 0.  The same holds for a failed receive of the
acknowledgment. -/
theorem C7_counterexample :
    (mainRunFail 10 5 (some OrchFailSite.sendStopFail)).1 = 0 ∧
    Action.printRunTime ∈ (mainRunFail 10 5 (some OrchFailSite.sendStopFail)).2 ∧
    orchOnFailure OrchFailSite.sendStopFail = FailResponse.reportContinue ∧
    orchOnFailure OrchFailSite.sendStopFail ≠ FailResponse.fatalExit 1 := by
  refine ⟨rfl, by decide, rfl, by decide⟩

/-- C7 (amended): for every valid run, a failure of channel creation, of
either spawn, of the handle allocation, or of a join-barrier receive is
fatal: the process reports it and exits 1 at once, its trace stopping at the
failing operation with no teardown and no run-time line.  A failure of the
stop-request send or of the acknowledgment receive on the stop/ack channel,
however, is only reported: the run continues through the full teardown and
exits 0. -/
theorem C7_failure_policy (N C : Nat) (hval : validateArgs N C = Except.ok ()) :
    (orchOnFailure OrchFailSite.chmakeFail = FailResponse.fatalExit 1 ∧
     (mainRunFail N C (some OrchFailSite.chmakeFail)).1 = 1 ∧
     Action.printRunTime ∉ (mainRunFail N C (some OrchFailSite.chmakeFail)).2) ∧
    (orchOnFailure OrchFailSite.spawnStatsFail = FailResponse.fatalExit 1 ∧
     (mainRunFail N C (some OrchFailSite.spawnStatsFail)).1 = 1 ∧
     Action.printRunTime ∉ (mainRunFail N C (some OrchFailSite.spawnStatsFail)).2) ∧
    (orchOnFailure OrchFailSite.mallocFail = FailResponse.fatalExit 1 ∧
     (mainRunFail N C (some OrchFailSite.mallocFail)).1 = 1 ∧
     Action.printRunTime ∉ (mainRunFail N C (some OrchFailSite.mallocFail)).2) ∧
    (orchOnFailure OrchFailSite.spawnWorkerFail = FailResponse.fatalExit 1 ∧
     (mainRunFail N C (some OrchFailSite.spawnWorkerFail)).1 = 1 ∧
     Action.printRunTime ∉ (mainRunFail N C (some OrchFailSite.spawnWorkerFail)).2) ∧
    (orchOnFailure OrchFailSite.recvDoneFail = FailResponse.fatalExit 1 ∧
     (mainRunFail N C (some OrchFailSite.recvDoneFail)).1 = 1 ∧
     Action.printRunTime ∉ (mainRunFail N C (some OrchFailSite.recvDoneFail)).2) ∧
    (orchOnFailure OrchFailSite.sendStopFail = FailResponse.reportContinue ∧
     (mainRunFail N C (some OrchFailSite.sendStopFail)).1 = 0 ∧
     (mainRunFail N C (some OrchFailSite.sendStopFail)).2 = mainTrace N C) ∧
    (orchOnFailure OrchFailSite.recvAckFail = FailResponse.reportContinue ∧
     (mainRunFail N C (some OrchFailSite.recvAckFail)).1 = 0 ∧
     (mainRunFail N C (some OrchFailSite.recvAckFail)).2 = mainTrace N C) := by
  have h1 : mainRunFail N C (some OrchFailSite.chmakeFail) =
      (1, [Action.makeChannel, Action.makeChannel, Action.makeChannel]) := by
    unfold mainRunFail
    rw [hval]
  have h2 : mainRunFail N C (some OrchFailSite.spawnStatsFail) =
      (1, [Action.makeChannel, Action.makeChannel, Action.makeChannel,
           Action.spawnStats]) := by
    unfold mainRunFail
    rw [hval]
  have h3 : mainRunFail N C (some OrchFailSite.mallocFail) =
      (1, [Action.makeChannel, Action.makeChannel, Action.makeChannel,
           Action.spawnStats, Action.allocHandles]) := by
    unfold mainRunFail
    rw [hval]
  have h4 : mainRunFail N C (some OrchFailSite.spawnWorkerFail) =
      (1, [Action.makeChannel, Action.makeChannel, Action.makeChannel,
           Action.spawnStats, Action.allocHandles,
           Action.spawnWorker (N / C)]) := by
    unfold mainRunFail
    rw [hval]
  have h5 : mainRunFail N C (some OrchFailSite.recvDoneFail) =
      (1, [Action.makeChannel, Action.makeChannel, Action.makeChannel,
           Action.spawnStats, Action.allocHandles]
          ++ List.replicate C (Action.spawnWorker (N / C))
          ++ [Action.recvDone]) := by
    unfold mainRunFail
    rw [hval]
  have h6 : mainRunFail N C (some OrchFailSite.sendStopFail) = (0, mainTrace N C) := by
    unfold mainRunFail
    rw [hval]
  have h7 : mainRunFail N C (some OrchFailSite.recvAckFail) = (0, mainTrace N C) := by
    unfold mainRunFail
    rw [hval]
  refine ⟨⟨rfl, ?_, ?_⟩, ⟨rfl, ?_, ?_⟩, ⟨rfl, ?_, ?_⟩, ⟨rfl, ?_, ?_⟩,
    ⟨rfl, ?_, ?_⟩, ⟨rfl, ?_, ?_⟩, ⟨rfl, ?_, ?_⟩⟩
  · rw [h1]
  · rw [h1]
    decide
  · rw [h2]
  · rw [h2]
    decide
  · rw [h3]
  · rw [h3]
    decide
  · rw [h4]
  · rw [h4]
    simp
  · rw [h5]
  · rw [h5]
    simp [List.mem_append, List.mem_replicate]
  · rw [h6]
  · rw [h6]
  · rw [h7]
  · rw [h7]

/-- C7 witness: the failure-policy statement at N = 10, C = 5. -/
theorem C7_witness :
    (mainRunFail 10 5 (some OrchFailSite.chmakeFail)).1 = 1 ∧
    (mainRunFail 10 5 (some OrchFailSite.recvDoneFail)).1 = 1 ∧
    (mainRunFail 10 5 (some OrchFailSite.recvAckFail)).1 = 0 ∧
    (mainRunFail 10 5 (some OrchFailSite.recvAckFail)).2 = mainTrace 10 5 := by
  have h := C7_failure_policy 10 5 (by rfl)
  exact ⟨h.1.2.1, h.2.2.2.2.1.2.1, h.2.2.2.2.2.2.2.1, h.2.2.2.2.2.2.2.2⟩

end Dboom
